import Mathlib

/-!
Shallow embedding of the fitbit-streamlit repository
(`src/get-fitbit-lambda/lambda_function.py` and `src/app.py`) and proofs
about its ingestion pipeline and dashboard aggregation.
-/

namespace FitbitStreamlit

/-- Errors raised by the Python runtime or surfaced by the AWS SDK:
list/dict indexing errors, the pandas `.dt` accessor's
`AttributeError` on a non-datetimelike column, the token-refresh and
API-request exceptions, and a non-`NoSuchKey` S3 client error code. -/
inductive PyErr where
  | indexError
  | keyError
  | attributeError
  | tokenRefreshError (msg : String)
  | apiRequestError (msg : String)
  | clientError (code : String)
deriving DecidableEq, Repr

/-- Outcome of `s3_client.get_object` on one category's parquet object:
the object exists and decodes to rows, the object is absent (the
`NoSuchKey` client-error code), or the read fails with any other
client-error code. -/
inductive S3Read (α : Type) where
  | ok (rows : List α)
  | noSuchKey
  | otherError (code : String)
deriving DecidableEq

/-- Worker for exact-row deduplication keeping the first occurrence of
each row, the semantics of `pandas.DataFrame.drop_duplicates`; `seen`
accumulates rows already emitted. -/
def dedupFirst [DecidableEq α] (seen : List α) : List α → List α
  | [] => []
  | x :: xs => if x ∈ seen then dedupFirst seen xs else x :: dedupFirst (x :: seen) xs

/-- Exact-row deduplication across all columns, keeping first
occurrences, as `pd.concat([existing_df, new_df]).drop_duplicates()`
does (lambda_function.py line 207). -/
def dropDuplicates [DecidableEq α] (l : List α) : List α :=
  dedupFirst [] l

/-- Embeds `merge_and_upload_to_s3` (lambda_function.py lines 198-219):
read the existing object; on success concatenate existing and new rows
and drop duplicate rows; on `NoSuchKey` use the new rows verbatim;
re-raise any other client error.  The returned list is the table
uploaded back to the same key. -/
def mergeAndUploadToS3 [DecidableEq α] (newDf : List α) (readResult : S3Read α) :
    Except PyErr (List α) :=
  match readResult with
  | .ok existing => .ok (dropDuplicates (existing ++ newDf))
  | .noSuchKey => .ok newDf
  | .otherError code => .error (.clientError code)

theorem mem_dedupFirst [DecidableEq α] (a : α) (l : List α) :
    ∀ seen, a ∈ dedupFirst seen l ↔ a ∈ l ∧ a ∉ seen := by
  induction l with
  | nil => intro seen; simp [dedupFirst]
  | cons x xs ih =>
    intro seen
    by_cases hx : x ∈ seen
    · rw [dedupFirst, if_pos hx, ih]
      simp only [List.mem_cons]
      constructor
      · rintro ⟨h1, h2⟩
        exact ⟨Or.inr h1, h2⟩
      · rintro ⟨h1 | h1, h2⟩
        · exact absurd (h1 ▸ hx) h2
        · exact ⟨h1, h2⟩
    · rw [dedupFirst, if_neg hx]
      simp only [List.mem_cons, ih, List.mem_cons]
      constructor
      · rintro (rfl | ⟨h1, h2⟩)
        · exact ⟨Or.inl rfl, hx⟩
        · refine ⟨Or.inr h1, fun hs => h2 (Or.inr hs)⟩
      · rintro ⟨h1 | h1, h2⟩
        · exact Or.inl h1
        · by_cases hax : a = x
          · exact Or.inl hax
          · exact Or.inr ⟨h1, fun hs => hs.elim hax h2⟩

theorem dedupFirst_congr [DecidableEq α] (l : List α) :
    ∀ s₁ s₂, (∀ a, a ∈ l → (a ∈ s₁ ↔ a ∈ s₂)) → dedupFirst s₁ l = dedupFirst s₂ l := by
  induction l with
  | nil => intro s₁ s₂ _; rfl
  | cons x xs ih =>
    intro s₁ s₂ h
    have hx := h x (List.mem_cons_self x xs)
    by_cases h1 : x ∈ s₁
    · rw [dedupFirst, if_pos h1, dedupFirst, if_pos (hx.mp h1)]
      exact ih s₁ s₂ (fun a ha => h a (List.mem_cons_of_mem _ ha))
    · have h2 : x ∉ s₂ := fun hc => h1 (hx.mpr hc)
      rw [dedupFirst, if_neg h1, dedupFirst, if_neg h2]
      congr 1
      refine ih (x :: s₁) (x :: s₂) (fun a ha => ?_)
      simp only [List.mem_cons]
      exact or_congr Iff.rfl (h a (List.mem_cons_of_mem _ ha))

theorem dedupFirst_append [DecidableEq α] (l n : List α) :
    ∀ seen, dedupFirst seen (l ++ n) = dedupFirst seen l ++ dedupFirst (l ++ seen) n := by
  induction l with
  | nil => intro seen; simp [dedupFirst]
  | cons x xs ih =>
    intro seen
    by_cases hx : x ∈ seen
    · rw [List.cons_append, dedupFirst, if_pos hx, dedupFirst, if_pos hx, ih]
      congr 1
      refine dedupFirst_congr n _ _ (fun a _ => ?_)
      by_cases hax : a = x
      · subst hax; simp [hx]
      · simp [List.mem_append, List.mem_cons, hax]
    · rw [List.cons_append, dedupFirst, if_neg hx, dedupFirst, if_neg hx, ih]
      rw [List.cons_append]
      congr 2
      refine dedupFirst_congr n _ _ (fun a _ => ?_)
      by_cases hax : a = x
      · subst hax; simp
      · simp [List.mem_append, List.mem_cons, hax]

theorem nodup_dedupFirst [DecidableEq α] (l : List α) :
    ∀ seen, (dedupFirst seen l).Nodup := by
  induction l with
  | nil => intro seen; simp [dedupFirst]
  | cons x xs ih =>
    intro seen
    by_cases hx : x ∈ seen
    · rw [dedupFirst, if_pos hx]; exact ih seen
    · rw [dedupFirst, if_neg hx]
      refine List.nodup_cons.mpr ⟨fun hc => ?_, ih (x :: seen)⟩
      exact ((mem_dedupFirst x xs (x :: seen)).mp hc).2 (List.mem_cons_self x seen)

theorem dedupFirst_eq_self [DecidableEq α] (l : List α) :
    ∀ seen, l.Nodup → (∀ a, a ∈ l → a ∉ seen) → dedupFirst seen l = l := by
  induction l with
  | nil => intro seen _ _; rfl
  | cons x xs ih =>
    intro seen hnd hdis
    have hx : x ∉ seen := hdis x (List.mem_cons_self x xs)
    rw [dedupFirst, if_neg hx]
    congr 1
    refine ih (x :: seen) (List.nodup_cons.mp hnd).2 (fun a ha => ?_)
    simp only [List.mem_cons]
    rintro (rfl | hs)
    · exact (List.nodup_cons.mp hnd).1 ha
    · exact hdis a (List.mem_cons_of_mem _ ha) hs

theorem dedupFirst_eq_nil [DecidableEq α] (n : List α) :
    ∀ seen, (∀ a, a ∈ n → a ∈ seen) → dedupFirst seen n = [] := by
  induction n with
  | nil => intro seen _; rfl
  | cons x xs ih =>
    intro seen h
    rw [dedupFirst, if_pos (h x (List.mem_cons_self x xs))]
    exact ih seen (fun a ha => h a (List.mem_cons_of_mem _ ha))

theorem mem_dropDuplicates [DecidableEq α] (a : α) (l : List α) :
    a ∈ dropDuplicates l ↔ a ∈ l := by
  rw [dropDuplicates, mem_dedupFirst]
  simp

theorem nodup_dropDuplicates [DecidableEq α] (l : List α) :
    (dropDuplicates l).Nodup :=
  nodup_dedupFirst l []

/-- Appending rows that are all already present to a duplicate-free
table and deduplicating is a no-op. -/
theorem dropDuplicates_append_absorb [DecidableEq α] (s n : List α)
    (hnd : s.Nodup) (hsub : ∀ a, a ∈ n → a ∈ s) :
    dropDuplicates (s ++ n) = s := by
  rw [dropDuplicates, dedupFirst_append]
  rw [dedupFirst_eq_self s [] hnd (fun a _ => List.not_mem_nil a)]
  rw [dedupFirst_eq_nil n (s ++ []) (fun a ha => by simpa using hsub a ha)]
  simp

/-- Claim C1 is false as stated: merge-upload is not idempotent for
every list of new rows.  When the first run finds no existing object
(`NoSuchKey`) it uploads the new rows verbatim, without deduplication;
with the duplicated new-row list `[0, 0]` the first run stores two rows
and the second run, merging the identical rows into that store,
collapses them to one row, so the row count changes. -/
theorem C1_counterexample :
    mergeAndUploadToS3 [0, 0] (S3Read.noSuchKey (α := Nat)) = .ok [0, 0] ∧
    mergeAndUploadToS3 [0, 0] (S3Read.ok ([0, 0] : List Nat)) = .ok [0] ∧
    ([0, 0] : List Nat).length ≠ ([0] : List Nat).length :=
  ⟨rfl, rfl, by decide⟩

/-- Claim C1 (amended): after any successful first merge-upload of
`new` producing store `s₁`, re-running with the identical rows `new`
stores `dropDuplicates (s₁ ++ new)`, whose row set always equals that
of `s₁`; the row count is also unchanged whenever `s₁` is
duplicate-free, which is guaranteed whenever the first run read an
existing object (the `NoSuchKey` path stores the new rows verbatim and
may leave duplicates). -/
theorem C1_merge_idempotent {α : Type} [DecidableEq α] (new s₁ : List α) (r : S3Read α)
    (h : mergeAndUploadToS3 new r = .ok s₁) :
    mergeAndUploadToS3 new (S3Read.ok s₁) = .ok (dropDuplicates (s₁ ++ new)) ∧
    (∀ a, a ∈ dropDuplicates (s₁ ++ new) ↔ a ∈ s₁) ∧
    (s₁.Nodup → dropDuplicates (s₁ ++ new) = s₁) ∧
    (∀ existing, r = S3Read.ok existing → s₁.Nodup) := by
  have hsub : ∀ a, a ∈ new → a ∈ s₁ := by
    intro a ha
    cases r with
    | ok existing =>
      rw [mergeAndUploadToS3] at h
      cases h
      rw [mem_dropDuplicates]
      exact List.mem_append_right existing ha
    | noSuchKey =>
      rw [mergeAndUploadToS3] at h
      cases h
      exact ha
    | otherError code =>
      rw [mergeAndUploadToS3] at h
      cases h
  refine ⟨rfl, ?_, ?_, ?_⟩
  · intro a
    rw [mem_dropDuplicates, List.mem_append]
    exact ⟨fun hc => hc.elim id (hsub a), Or.inl⟩
  · intro hnd
    exact dropDuplicates_append_absorb s₁ new hnd hsub
  · intro existing hr
    subst hr
    rw [mergeAndUploadToS3] at h
    cases h
    exact nodup_dropDuplicates _

/-- Concrete instance of the amended claim C1: merging `[1, 2]` into an
existing store `[2, 3]` yields `[2, 3, 1]`, and re-merging the same
rows leaves `[2, 3, 1]` unchanged. -/
theorem C1_merge_idempotent_witness :
    mergeAndUploadToS3 [1, 2] (S3Read.ok ([2, 3] : List Nat)) = .ok [2, 3, 1] ∧
    dropDuplicates ([2, 3, 1] ++ [1, 2]) = ([2, 3, 1] : List Nat) :=
  ⟨by rfl, (C1_merge_idempotent [1, 2] [2, 3, 1] (S3Read.ok [2, 3]) (by rfl)).2.2.1 (by decide)⟩

/-- Claim C2: when the object store reports the category object absent
(`NoSuchKey`), `merge_and_upload_to_s3` surfaces no error and persists
the new rows alone; a read failure with any other client-error code is
re-raised to the caller. -/
theorem C2_missing_object_as_empty {α : Type} [DecidableEq α] (new : List α) (code : String) :
    mergeAndUploadToS3 new (S3Read.noSuchKey (α := α)) = .ok new ∧
    mergeAndUploadToS3 new (S3Read.otherError (α := α) code) =
      .error (PyErr.clientError code) :=
  ⟨rfl, rfl⟩

/-- One loaded dashboard row for a category: a calendar date and the
value of the category's single metric column (`app.py` loads `date`
plus one metric column and casts the metric to float).  Calendar dates
are embedded as day numbers, so `today - 7` is the day seven calendar
days before `today`. -/
structure DataRow where
  date : Int
  value : ℚ
deriving DecidableEq

/-- Embeds `df.groupby("date")[metric].sum().reset_index()` (app.py
line 52): one output row per distinct input date, carrying the sum of
that date's metric values.  pandas orders groups by key; group order is
irrelevant to every property proved here, so groups appear in
first-occurrence order. -/
def groupByDateSum (rows : List DataRow) : List DataRow :=
  (dropDuplicates (rows.map DataRow.date)).map
    (fun d => ⟨d, ((rows.filter (fun r => r.date == d)).map DataRow.value).sum⟩)

/-- The boolean date mask of app.py line 53:
`(df["date"].dt.date >= start_date) & (df["date"].dt.date <= today)`
with `start_date = today - timedelta(days=7)`. -/
def inWindow (today d : Int) : Bool :=
  decide (today - 7 ≤ d ∧ d ≤ today)

/-- Embeds the value computation of `calculate_weekly_average` (app.py
lines 48-55) on a frame whose `date` column is datetime-typed (the only
frames on which line 53's `.dt` accessor succeeds; the dtype-aware
entry point is `calculateWeeklyAverageFrame` below): group rows by date
summing the metric, keep the grouped dates matching `inWindow`, and
take the mean of their values; `mean()` of an empty selection is NaN,
which `pd.isna` turns into the returned 0.0 — embedded as the
empty-selection branch returning 0. -/
def calculateWeeklyAverage (today : Int) (rows : List DataRow) : ℚ :=
  let grouped := groupByDateSum rows
  let recent := grouped.filter (fun r => inWindow today r.date)
  if recent.isEmpty then 0 else (recent.map DataRow.value).sum / recent.length

/-- Modelled from the claim wording only (for comparison with
`calculateWeeklyAverage`): the same computation restricted to a window
of exactly 7 calendar days ending today, i.e. `today - 6 … today`. -/
def specWeeklyAverage7 (today : Int) (rows : List DataRow) : ℚ :=
  let grouped := groupByDateSum rows
  let recent := grouped.filter (fun r => decide (today - 6 ≤ r.date ∧ r.date ≤ today))
  if recent.isEmpty then 0 else (recent.map DataRow.value).sum / recent.length

/-- Claim C3 is false as stated: the filter of app.py line 53 keeps
dates from `today - 7` through `today`, an eight-calendar-day window.
With today = 7, a single row dated day 0 = today - 7 lies outside the 7
calendar days ending today (its date is `< today - 6`), yet
`calculate_weekly_average` returns its value 100 rather than the 0 the
claimed 7-day window would give. -/
theorem C3_counterexample :
    calculateWeeklyAverage 7 [⟨0, 100⟩] = 100 ∧
    specWeeklyAverage7 7 [⟨0, 100⟩] = 0 ∧
    ¬ ((7 : Int) - 6 ≤ 0) := by
  refine ⟨?_, ?_, by decide⟩
  · norm_num [calculateWeeklyAverage, groupByDateSum, dropDuplicates, dedupFirst, inWindow]
  · norm_num [specWeeklyAverage7, groupByDateSum, dropDuplicates, dedupFirst]

theorem dedupFirst_filter_aux [DecidableEq α] (p : α → Bool) (l : List α) :
    ∀ s₁ s₂, (∀ a, p a = true → (a ∈ s₁ ↔ a ∈ s₂)) →
      dedupFirst s₁ (l.filter p) = (dedupFirst s₂ l).filter p := by
  induction l with
  | nil => intro s₁ s₂ _; rfl
  | cons x xs ih =>
    intro s₁ s₂ h
    by_cases hp : p x = true
    · rw [List.filter_cons_of_pos hp]
      by_cases h2 : x ∈ s₂
      · have h1 : x ∈ s₁ := (h x hp).mpr h2
        rw [dedupFirst, if_pos h1, dedupFirst, if_pos h2]
        exact ih s₁ s₂ h
      · have h1 : x ∉ s₁ := fun hc => h2 ((h x hp).mp hc)
        rw [dedupFirst, if_neg h1, dedupFirst, if_neg h2, List.filter_cons_of_pos hp]
        congr 1
        refine ih (x :: s₁) (x :: s₂) (fun a ha => ?_)
        simp only [List.mem_cons]
        exact or_congr Iff.rfl (h a ha)
    · rw [List.filter_cons_of_neg hp]
      by_cases h2 : x ∈ s₂
      · rw [dedupFirst, if_pos h2]
        exact ih s₁ s₂ h
      · rw [dedupFirst, if_neg h2, List.filter_cons_of_neg hp]
        refine ih s₁ (x :: s₂) (fun a ha => ?_)
        have hax : a ≠ x := fun hc => hp (hc ▸ ha)
        simp only [List.mem_cons]
        rw [h a ha]
        exact Iff.symm (or_iff_right hax)

theorem dropDuplicates_filter [DecidableEq α] (p : α → Bool) (l : List α) :
    dropDuplicates (l.filter p) = (dropDuplicates l).filter p :=
  dedupFirst_filter_aux p l [] [] (fun _ _ => Iff.rfl)

theorem map_date_filter (p : Int → Bool) (rows : List DataRow) :
    (rows.filter (fun r => p r.date)).map DataRow.date = (rows.map DataRow.date).filter p := by
  induction rows with
  | nil => rfl
  | cons r rs ih =>
    by_cases h : p r.date <;> simp [List.filter_cons, h, ih]

theorem filter_date_map (p : Int → Bool) (f : Int → DataRow) (hf : ∀ d, (f d).date = d)
    (dates : List Int) :
    (dates.map f).filter (fun r => p r.date) = (dates.filter p).map f := by
  induction dates with
  | nil => rfl
  | cons d ds ih =>
    rw [List.map_cons]
    by_cases h : p d
    · rw [List.filter_cons_of_pos (by simpa [hf] using h),
        List.filter_cons_of_pos (by simpa using h), List.map_cons, ih]
    · rw [List.filter_cons_of_neg (by simpa [hf] using h),
        List.filter_cons_of_neg (by simpa using h), ih]

/-- Grouping commutes with any filter that depends only on the date:
filtering the rows first and then grouping by date equals grouping
first and then filtering the grouped rows. -/
theorem groupByDateSum_filter (p : Int → Bool) (rows : List DataRow) :
    groupByDateSum (rows.filter (fun r => p r.date)) =
      (groupByDateSum rows).filter (fun r => p r.date) := by
  unfold groupByDateSum
  rw [map_date_filter, dropDuplicates_filter,
    filter_date_map p _ (fun d => rfl) (dropDuplicates (rows.map DataRow.date))]
  refine List.map_congr_left (fun d hd => ?_)
  have hpd : p d = true := (List.mem_filter.mp hd).2
  congr 1
  rw [List.filter_filter]
  refine congrArg (fun l => (l.map DataRow.value).sum) (List.filter_congr (fun r _ => ?_))
  by_cases hr : r.date = d
  · simp [hr, hpd]
  · simp [hr]

/-- Claim C3 (amended): `calculate_weekly_average` groups rows by date,
summing same-day rows, and returns the mean of the per-date sums over
the trailing window of eight calendar days `today - 7 … today`; rows
dated outside that window never contribute — dropping them leaves the
result unchanged. -/
theorem C3_weekly_average_window (today : Int) (rows : List DataRow) :
    calculateWeeklyAverage today rows =
      calculateWeeklyAverage today (rows.filter (fun r => inWindow today r.date)) ∧
    calculateWeeklyAverage today rows =
      (if ((groupByDateSum rows).filter (fun r => inWindow today r.date)).isEmpty then 0
       else (((groupByDateSum rows).filter (fun r => inWindow today r.date)).map
           DataRow.value).sum /
         ((groupByDateSum rows).filter (fun r => inWindow today r.date)).length) := by
  constructor
  · unfold calculateWeeklyAverage
    rw [groupByDateSum_filter (fun d => inWindow today d) rows]
    simp only [List.filter_filter, Bool.and_self]
  · rfl


/-- One record of the sleep API response's `sleep` list; `none` models
a missing JSON key, matching the source's `.get(key)` /
`.get(key, default)` reads. -/
structure SleepRecord where
  minutesAsleep : Option ℚ
  dateOfSleep : Option String
  startTime : Option String
  endTime : Option String
deriving DecidableEq

/-- One row of the sleep DataFrame built by `process_sleep_data`. -/
structure SleepRow where
  total_sleep_hour : ℚ
  start_time : Option String
  end_time : Option String
  date : Option String
deriving DecidableEq

/-- Embeds `process_sleep_data` (lambda_function.py lines 124-143):
line 129 evaluates `sleep_records[0].get("minutesAsleep", 0)` before
anything else, so an empty session list raises `IndexError`; otherwise
one output row per session record, with minutes asleep divided by 60. -/
def processSleepData (sleepRecords : List SleepRecord) : Except PyErr (List SleepRow) :=
  match sleepRecords with
  | [] => .error .indexError
  | _ :: _ =>
      .ok (sleepRecords.map (fun r =>
        ⟨r.minutesAsleep.getD 0 / 60, r.startTime, r.endTime, r.dateOfSleep⟩))

/-- One record of the steps API response's `activities-steps` list. -/
structure StepsRecord where
  value : Option ℚ
  dateTime : Option String
deriving DecidableEq

/-- One row of the steps DataFrame built by `process_steps_data`. -/
structure StepsRow where
  steps : ℚ
  date : Option String
deriving DecidableEq

/-- Embeds `process_steps_data` (lambda_function.py lines 146-154): one
row per response record, `value` defaulting to 0 when the key is
missing, `dateTime` taken as-is. -/
def processStepsData (stepsRecords : List StepsRecord) : List StepsRow :=
  stepsRecords.map (fun r => ⟨r.value.getD 0, r.dateTime⟩)

/-- One record of the activity API response's
`activities-active-zone-minutes` list; `none` models a missing key,
which plain `record[key]` indexing turns into `KeyError`. -/
structure ActivityRecord where
  activeZoneMinutes : Option ℚ
  dateTime : Option String
deriving DecidableEq

/-- One row of the activity DataFrame built by `process_activity_data`. -/
structure ActivityRow where
  active_zone_minutes : ℚ
  date : String
deriving DecidableEq

/-- Embeds `process_activity_data` (lambda_function.py lines 156-169):
fields are read with plain indexing
(`records["value"]["activeZoneMinutes"]`, `records["dateTime"]`), so a
missing key raises `KeyError`; otherwise one row per record. -/
def processActivityData (activityRecords : List ActivityRecord) :
    Except PyErr (List ActivityRow) := do
  let azm ← activityRecords.mapM (fun r =>
    match r.activeZoneMinutes with
    | some v => Except.ok v
    | none => Except.error PyErr.keyError)
  let dates ← activityRecords.mapM (fun r =>
    match r.dateTime with
    | some d => Except.ok d
    | none => Except.error PyErr.keyError)
  return List.zipWith (fun v d => ⟨v, d⟩) azm dates

/-- One sample of the intraday heart-rate dataset: a time label and a
bpm value. -/
structure HeartSample where
  time : Option String
  value : Int
deriving DecidableEq

/-- The heart endpoint response: the `dateTime` of each
`activities-heart` summary record (read with `.get("dateTime", "")`, so
a String with empty-string default), and the
`activities-heart-intraday.dataset` sample list.  An absent
`activities-heart` key and an empty summary list both land in the `[]`
case (`KeyError` and `IndexError` respectively — both uncaught). -/
structure HeartData where
  activitiesHeart : List String
  dataset : List HeartSample
deriving DecidableEq

/-- Threshold constant of lambda_function.py line 17. -/
def HEART_RATE_THRESHOLD : Int := 90

/-- One row of the aggregate DataFrame built by
`process_low_intensity_data`. -/
structure LowIntensityRow where
  low_intensity_minutes : Int
  date : String
deriving DecidableEq

/-- Embeds `process_low_intensity_data` (lambda_function.py lines
171-195): line 177 indexes `heart_data["activities-heart"][0]`
unconditionally, so an empty summary list raises before the
empty-dataset check; a non-empty dataset yields one aggregate row
counting the samples with `value >= HEART_RATE_THRESHOLD`; an empty
dataset (under a non-empty summary list) yields a DataFrame with no
rows. -/
def processLowIntensityData (heartData : HeartData) : Except PyErr (List LowIntensityRow) :=
  match heartData.activitiesHeart with
  | [] => .error .indexError
  | d :: _ =>
      if heartData.dataset.isEmpty then .ok []
      else .ok [⟨(heartData.dataset.countP
        (fun s => decide (HEART_RATE_THRESHOLD ≤ s.value)) : Int), d⟩]

/-- Claim C5: for a heart response whose summary carries date `d` and
whose non-empty intraday dataset has exactly `K` samples at or above
`HEART_RATE_THRESHOLD`, `process_low_intensity_data` produces exactly
one aggregate row, dated `d`, with `low_intensity_minutes = K`. -/
theorem C5_low_intensity_count (d : String) (rest : List String)
    (samples : List HeartSample) (K : Nat)
    (hne : samples ≠ [])
    (hK : samples.countP (fun s => decide (HEART_RATE_THRESHOLD ≤ s.value)) = K) :
    processLowIntensityData ⟨d :: rest, samples⟩ = .ok [⟨(K : Int), d⟩] := by
  subst hK
  have h : ¬ samples.isEmpty = true := by simpa [List.isEmpty_iff] using hne
  simp [processLowIntensityData, h]

/-- Concrete instance of claim C5: three samples at 95, 80 and 90 bpm
against the threshold 90 give one row with 2 low-intensity minutes. -/
theorem C5_low_intensity_count_witness :
    processLowIntensityData
      ⟨[("2024-01-01")], [⟨some ("00:00"), 95⟩, ⟨some ("00:05"), 80⟩, ⟨some ("00:10"), 90⟩]⟩ =
      .ok [⟨2, "2024-01-01"⟩] :=
  C5_low_intensity_count ("2024-01-01") []
    [⟨some ("00:00"), 95⟩, ⟨some ("00:05"), 80⟩, ⟨some ("00:10"), 90⟩] 2
    (by decide) (by decide)

/-- Claim C6 is false as stated: on an input whose intraday dataset is
empty and whose `activities-heart` summary list is also empty,
`process_low_intensity_data` raises (line 177 indexes the summary list
before the empty-dataset check) instead of returning an empty table. -/
theorem C6_counterexample :
    processLowIntensityData ⟨[], []⟩ = .error PyErr.indexError := rfl

/-- Claim C6 (amended): an empty intraday dataset yields an empty
DataFrame without error provided the `activities-heart` summary list is
non-empty; when the summary list is empty the function instead raises
an index error, whatever the dataset. -/
theorem C6_empty_dataset (d : String) (rest : List String) (samples : List HeartSample) :
    processLowIntensityData ⟨d :: rest, []⟩ = .ok [] ∧
    processLowIntensityData ⟨[], samples⟩ = .error PyErr.indexError :=
  ⟨rfl, rfl⟩

/-- Claim C7: a steps response with a single record carrying value 8000
for day `d` produces exactly one row, dated `d`, whose steps field is
the value 8000 taken as-is. -/
theorem C7_steps_single_day (d : String) :
    processStepsData [⟨some 8000, some d⟩] = [⟨8000, some d⟩] := rfl

/-- Claim C9: `process_sleep_data` raises `IndexError` on an empty
session list (it indexes the first session before building any output),
and its success branch is reachable only when the session list is
non-empty. -/
theorem C9_sleep_empty_raises (sleepRecords : List SleepRecord) :
    (sleepRecords = [] → processSleepData sleepRecords = .error PyErr.indexError) ∧
    (∀ rows, processSleepData sleepRecords = .ok rows → sleepRecords ≠ []) := by
  constructor
  · rintro rfl
    rfl
  · rintro rows h rfl
    simp [processSleepData] at h

/-- Concrete instance of claim C9: the empty session list raises. -/
theorem C9_sleep_empty_raises_witness :
    processSleepData [] = .error PyErr.indexError :=
  (C9_sleep_empty_raises []).1 rfl

/-- The Lambda success payload (lambda_function.py lines 280-288):
status code plus the processed target date carried in the body. -/
structure Response where
  statusCode : Nat
  date : String
deriving DecidableEq

/-- The four per-category parquet objects in the bucket, each seen
through the outcome its next read would have.  A successful upload of
`rows` turns the slot into `S3Read.ok rows`. -/
structure S3State where
  sleepObj : S3Read SleepRow
  stepsObj : S3Read StepsRow
  activityObj : S3Read ActivityRow
  lowIntensityObj : S3Read LowIntensityRow

/-- Everything outside the handler that determines one run: the token
refresh outcome, the four category API responses (an `error` is a
non-200 response raised by `fetch_fitbit_data` or a token failure),
the JST target date, and the initial S3 state. -/
structure World where
  tokenResp : Except PyErr String
  sleepResp : Except PyErr (List SleepRecord)
  stepsResp : Except PyErr (List StepsRecord)
  activityResp : Except PyErr (List ActivityRecord)
  heartResp : Except PyErr HeartData
  targetDate : String
  s3 : S3State

/-- The sleep leg of `handler` (lines 244-249): fetch, transform,
merge; any raised exception propagates.  A merge failure happens on the
read, before the upload, so it leaves the sleep object untouched. -/
def sleepStage (w : World) : Except PyErr (List SleepRow) := do
  let sleepData ← w.sleepResp
  let df ← processSleepData sleepData
  mergeAndUploadToS3 df w.s3.sleepObj

/-- The steps leg of `handler` (lines 251-258). -/
def stepsStage (w : World) : Except PyErr (List StepsRow) := do
  let stepsData ← w.stepsResp
  mergeAndUploadToS3 (processStepsData stepsData) w.s3.stepsObj

/-- The activity leg of `handler` (lines 260-270). -/
def activityStage (w : World) : Except PyErr (List ActivityRow) := do
  let activityData ← w.activityResp
  let df ← processActivityData activityData
  mergeAndUploadToS3 df w.s3.activityObj

/-- The low-intensity (heart) leg of `handler` (lines 272-279). -/
def heartStage (w : World) : Except PyErr (List LowIntensityRow) := do
  let heartData ← w.heartResp
  let df ← processLowIntensityData heartData
  mergeAndUploadToS3 df w.s3.lowIntensityObj

/-- Embeds `handler` (lambda_function.py lines 231-288): refresh the
token, then run the four category legs strictly in the order sleep,
steps, activity, low-intensity, updating each category's S3 object as
its merge succeeds; the first uncaught exception aborts the run,
leaving every not-yet-uploaded object in its initial state; the 200
response is built only after all four uploads. -/
def handler (w : World) : Except PyErr Response × S3State :=
  match w.tokenResp with
  | .error e => (.error e, w.s3)
  | .ok _ =>
    match sleepStage w with
    | .error e => (.error e, w.s3)
    | .ok s₁ =>
      match stepsStage w with
      | .error e => (.error e, ⟨.ok s₁, w.s3.stepsObj, w.s3.activityObj, w.s3.lowIntensityObj⟩)
      | .ok s₂ =>
        match activityStage w with
        | .error e => (.error e, ⟨.ok s₁, .ok s₂, w.s3.activityObj, w.s3.lowIntensityObj⟩)
        | .ok s₃ =>
          match heartStage w with
          | .error e => (.error e, ⟨.ok s₁, .ok s₂, .ok s₃, w.s3.lowIntensityObj⟩)
          | .ok s₄ => (.ok ⟨200, w.targetDate⟩, ⟨.ok s₁, .ok s₂, .ok s₃, .ok s₄⟩)

/-- Claim C10: the orchestrator is fail-fast in the order token, sleep,
steps, activity, low-intensity: a failing step propagates its exception
and every later category's store object is left unchanged (and so is
the failing category's own object, since merges fail before their
upload); statusCode 200 together with the target date is returned
exactly when all four categories merged, with all four objects
updated. -/
theorem C10_handler_fail_fast (w : World) :
    (∀ e, w.tokenResp = .error e → handler w = (.error e, w.s3)) ∧
    (∀ t, w.tokenResp = .ok t →
      (∀ e, sleepStage w = .error e → handler w = (.error e, w.s3)) ∧
      (∀ s₁, sleepStage w = .ok s₁ →
        (∀ e, stepsStage w = .error e → handler w =
          (.error e, ⟨.ok s₁, w.s3.stepsObj, w.s3.activityObj, w.s3.lowIntensityObj⟩)) ∧
        (∀ s₂, stepsStage w = .ok s₂ →
          (∀ e, activityStage w = .error e → handler w =
            (.error e, ⟨.ok s₁, .ok s₂, w.s3.activityObj, w.s3.lowIntensityObj⟩)) ∧
          (∀ s₃, activityStage w = .ok s₃ →
            (∀ e, heartStage w = .error e → handler w =
              (.error e, ⟨.ok s₁, .ok s₂, .ok s₃, w.s3.lowIntensityObj⟩)) ∧
            (∀ s₄, heartStage w = .ok s₄ → handler w =
              (.ok ⟨200, w.targetDate⟩, ⟨.ok s₁, .ok s₂, .ok s₃, .ok s₄⟩)))))) := by
  refine ⟨fun e he => by simp [handler, he], fun t ht => ?_⟩
  refine ⟨fun e he => by simp [handler, ht, he], fun s₁ h₁ => ?_⟩
  refine ⟨fun e he => by simp [handler, ht, h₁, he], fun s₂ h₂ => ?_⟩
  refine ⟨fun e he => by simp [handler, ht, h₁, h₂, he], fun s₃ h₃ => ?_⟩
  refine ⟨fun e he => by simp [handler, ht, h₁, h₂, h₃, he], fun s₄ h₄ => ?_⟩
  simp [handler, ht, h₁, h₂, h₃, h₄]

/-- Concrete instance of claim C10: token refresh and the sleep leg
succeed, the steps fetch raises; the handler returns that error, the
sleep object holds the merged sleep rows, and the steps, activity and
low-intensity objects keep their initial state. -/
theorem C10_handler_fail_fast_witness :
    handler
      ⟨.ok ("tok"), .ok [⟨some 420, some ("2024-01-01"), some ("23:00"), some ("07:00")⟩],
        .error (.apiRequestError ("500")), .ok [], .ok ⟨[("2024-01-01")], []⟩,
        "2024-01-01", ⟨.noSuchKey, .noSuchKey, .noSuchKey, .noSuchKey⟩⟩ =
      (.error (PyErr.apiRequestError ("500")),
        ⟨.ok [⟨7, some ("23:00"), some ("07:00"), some ("2024-01-01")⟩],
          .noSuchKey, .noSuchKey, .noSuchKey⟩) :=
  (((C10_handler_fail_fast _).2 ("tok") rfl).2
      [⟨7, some ("23:00"), some ("07:00"), some ("2024-01-01")⟩] (by norm_num [sleepStage,
        processSleepData, mergeAndUploadToS3, bind, Except.bind])).1
    (.apiRequestError ("500")) rfl

/-- The four dashboard categories (app.py line 122). -/
inductive Category where
  | sleep
  | steps
  | activity
  | low_intensity
deriving DecidableEq

/-- The Athena table name, equal to the category name (app.py line 63). -/
def categoryTable : Category → String
  | .sleep => "sleep"
  | .steps => "steps"
  | .activity => "activity"
  | .low_intensity => "low_intensity"

/-- The `metric_columns` mapping of `init_config` (app.py lines 31-36). -/
def metricColumn : Category → String
  | .sleep => "total_sleep_hour"
  | .steps => "steps"
  | .activity => "active_zone_minutes"
  | .low_intensity => "low_intensity_minutes"

/-- The query `load_data_athena` sends to Athena (app.py lines 63-70),
as a structured value: database, table, selected metric column, and the
optional `WHERE date BETWEEN start AND end` bounds, present exactly
when both arguments are passed (line 65; the dashboard passes dates or
leaves the Python `None` defaults, embedded as `Option`). -/
structure AthenaQuery where
  database : String
  table : String
  metric : String
  bounds : Option (Int × Int)
deriving DecidableEq

/-- Query construction of `load_data_athena` (app.py lines 63-70). -/
def buildQuery (c : Category) (startDate endDate : Option Int) : AthenaQuery :=
  ⟨"fitbit", categoryTable c, metricColumn c,
    match startDate, endDate with
    | some sd, some ed => some (sd, ed)
    | _, _ => none⟩

/-- App.py line 125: the dashboard pre-loads every category with
`load_data_athena(category, config)` — no bounds — and this is the only
query it ever issues; the later date-picker selection never triggers
another call. -/
def dashboardLoadQuery (c : Category) : AthenaQuery := buildQuery c none none

/-- Semantics of the query engine on a category table: all rows, or
only the rows between the bounds when the query carries them. -/
def runAthenaQuery (tbl : List DataRow) (q : AthenaQuery) : List DataRow :=
  match q.bounds with
  | some (a, b) => tbl.filter (fun r => decide (a ≤ r.date ∧ r.date ≤ b))
  | none => tbl

/-- Embeds `load_data_athena` (app.py lines 57-87): run the query; a
non-empty result is sorted by date (the float cast of line 86 changes
no value in this embedding). -/
def loadDataAthena (c : Category) (tbl : List DataRow) (startDate endDate : Option Int) :
    List DataRow :=
  let df := runAthenaQuery tbl (buildQuery c startDate endDate)
  if df.isEmpty then df else df.mergeSort (fun r₁ r₂ => decide (r₁.date ≤ r₂.date))

/-- Embeds `filter_data_by_date` (app.py lines 89-91): the in-memory
date-range filter applied to an already-loaded DataFrame. -/
def filterDataByDate (df : List DataRow) (selectedStart selectedEnd : Int) : List DataRow :=
  df.filter (fun r => decide (selectedStart ≤ r.date ∧ r.date ≤ selectedEnd))

/-- App.py lines 125 and 145: the rows the dashboard charts for a
category — the unbounded pre-load, filtered in memory by the selected
range. -/
def dashboardShownRows (c : Category) (tbl : List DataRow) (selectedStart selectedEnd : Int) :
    List DataRow :=
  filterDataByDate (loadDataAthena c tbl none none) selectedStart selectedEnd

/-- The default date-picker range (app.py lines 118-120): the
`default_days = 60` lookback ending yesterday. -/
def defaultRange (today : Int) : Int × Int := (today - 60, today - 1)

/-- Claim C8 is false as stated: the dashboard never issues a fresh
bounded query.  For the selected range day 100 … day 200, entirely
before the default range day 940 … day 999 of today = 1000, the only
query the dashboard issues for a category is the unbounded pre-load
query, which differs from the bounded query the claim requires and
carries no bounds at all. -/
theorem C8_counterexample :
    (dashboardLoadQuery Category.steps).bounds = none ∧
    dashboardLoadQuery Category.steps ≠ buildQuery Category.steps (some 100) (some 200) ∧
    (200 : Int) < (defaultRange 1000).1 := by
  refine ⟨rfl, by decide, by decide⟩

/-- Claim C8 (amended): the dashboard pre-loads each category once with
an unbounded query and computes the charted rows by filtering that
pre-load in memory with `filter_data_by_date`; because the pre-load is
unbounded, the charted rows for any selected range — also one entirely
outside the default range — are exactly the table rows whose date lies
in the selected range (as a multiset), neither empty nor stale. -/
theorem C8_unbounded_preload (c : Category) (tbl : List DataRow)
    (selectedStart selectedEnd : Int) :
    dashboardShownRows c tbl selectedStart selectedEnd =
      filterDataByDate (loadDataAthena c tbl none none) selectedStart selectedEnd ∧
    (dashboardShownRows c tbl selectedStart selectedEnd).Perm
      (tbl.filter (fun r => decide (selectedStart ≤ r.date ∧ r.date ≤ selectedEnd))) := by
  refine ⟨rfl, ?_⟩
  have hload : loadDataAthena c tbl none none =
      if tbl.isEmpty then tbl else tbl.mergeSort (fun r₁ r₂ => decide (r₁.date ≤ r₂.date)) :=
    rfl
  show (filterDataByDate (loadDataAthena c tbl none none) selectedStart selectedEnd).Perm _
  rw [hload, filterDataByDate]
  by_cases h : tbl.isEmpty
  · rw [if_pos h]
  · rw [if_neg h]
    exact (List.mergeSort_perm tbl _).filter _

/-- A loaded dashboard frame together with the pandas dtype state of
its `date` column: `dateIsDatetime` records whether the
`pd.to_datetime` conversion of app.py line 84 ran.  The raw Athena
result's `date` column holds strings (the lambda writes dates as
strings), so before that conversion the column is not datetimelike. -/
structure LoadedFrame where
  dateIsDatetime : Bool
  rows : List DataRow
deriving DecidableEq

/-- Embeds `load_data_athena` (app.py lines 57-87) including its dtype
effect: the `if not df.empty:` guard of line 83 means an empty query
result keeps its raw string-typed `date` column unconverted, while a
non-empty result is converted to datetime and sorted by date. -/
def loadDataAthenaFrame (c : Category) (tbl : List DataRow) (startDate endDate : Option Int) :
    LoadedFrame :=
  let df := runAthenaQuery tbl (buildQuery c startDate endDate)
  if df.isEmpty then ⟨false, df⟩
  else ⟨true, df.mergeSort (fun r₁ r₂ => decide (r₁.date ≤ r₂.date))⟩

/-- The frame-level load agrees with the row-level `loadDataAthena` on
the rows; only the dtype flag is additional. -/
theorem loadDataAthenaFrame_rows (c : Category) (tbl : List DataRow)
    (startDate endDate : Option Int) :
    (loadDataAthenaFrame c tbl startDate endDate).rows =
      loadDataAthena c tbl startDate endDate := by
  unfold loadDataAthenaFrame loadDataAthena
  by_cases h : (runAthenaQuery tbl (buildQuery c startDate endDate)).isEmpty <;> simp [h]

/-- Embeds `calculate_weekly_average` as the dashboard applies it to a
loaded frame (app.py line 132): line 53 evaluates
`df["date"].dt.date`, and the pandas `.dt` accessor raises
`AttributeError` unless the column is datetimelike — also on an empty
frame; only a datetime-typed frame reaches the value computation
`calculateWeeklyAverage`. -/
def calculateWeeklyAverageFrame (today : Int) (df : LoadedFrame) : Except PyErr ℚ :=
  if df.dateIsDatetime then .ok (calculateWeeklyAverage today df.rows)
  else .error .attributeError

/-- Claim C4 identifies a code bug: for a category whose query returns
zero rows, `load_data_athena` skips the to-datetime conversion exactly
because the frame is empty (app.py lines 83-84), so
`calculate_weekly_average` reaches `df["date"].dt.date` (line 53) on a
string-typed column and raises `AttributeError` instead of returning
the 0.0 the claim and spec require.  The value computation the source's
own `pd.isna` branch intends for an empty selection does yield 0 (third
conjunct), so the empty branch of the claim is the intent and the
skipped conversion the slip. -/
theorem C4_empty_frame_raises (today : Int) (c : Category) :
    loadDataAthenaFrame c [] none none = ⟨false, []⟩ ∧
    calculateWeeklyAverageFrame today (loadDataAthenaFrame c [] none none) =
      .error PyErr.attributeError ∧
    calculateWeeklyAverage today [] = 0 :=
  ⟨rfl, rfl, rfl⟩

end FitbitStreamlit
